import Mathlib

/-!
# Loan-management system: shallow embedding and verification

This file embeds the loan-lifecycle and EMI (equated monthly installment)
logic of the `lloansys` single-page application and proves, or refutes, the
specification's claims about it.

Conventions of the embedding:

* JavaScript numbers are modelled as rationals (`ℚ`); monetary rounding to
  two decimals (`toFixed(2)` / `Math.round(x*100)/100`) is modelled as
  `roundTo2`, where `round` on `ℚ` rounds half away from zero for positive
  arguments, matching `Math.round`'s half-up behaviour on the positive
  inputs the claims quantify over.
* Month counts and identifiers are `ℕ`; nullable fields are `Option`s.
* Each React event handler is embedded as a pure function from the loan
  collection (a `List Loan`) to the updated collection, mirroring the body
  of the handler in the source (`loans.map (...)` patterns become
  `List.map`); toast/early-return paths that leave the state untouched
  return the collection unchanged.
* The conditions under which the dashboards render each action button are
  embedded separately as `uiEnabled`, since several handlers rely on the
  UI layer for their guards.
-/

/-- A repayment (EMI) entry, as produced by `generateEMISchedule` in
`BorrowerDashboard.jsx`: a month label, an amount (the source stores the
`toFixed(2)` string; we keep its numeric value), and a paid flag. -/
structure Repayment where
  month : String
  amount : ℚ
  paid : Bool
deriving DecidableEq

/-- A loan record, with the fields created by `handleRequestLoan` in
`BorrowerDashboard.jsx` plus the `disbursedAt` field added by
`handleDisburse` in `LenderDashboard.jsx`. -/
structure Loan where
  id : ℕ
  borrowerId : ℕ
  borrowerName : String
  amount : ℚ
  duration : ℕ
  purpose : String
  aadhar : String
  pan : String
  address : String
  status : String
  lenderId : Option ℕ
  lenderName : Option String
  repayments : List Repayment
  createdAt : String
  disbursedAt : Option String
deriving DecidableEq

/-- A user record (`users` collection); only the fields the loan handlers
read (`id`, `name`, `role`). -/
structure User where
  id : ℕ
  name : String
  role : String
deriving DecidableEq

/-- Rounding to two decimal places: the numeric effect of both
`Math.round(x * 100) / 100` (default-export `calculateEMI`) and
`x.toFixed(2)` (`generateEMISchedule`, named-export `calculateEMI`) on the
positive rationals the claims range over (`round` on `ℚ` rounds half
up, matching `Math.round`). -/
def roundTo2 (x : ℚ) : ℚ := (round (x * 100) : ℤ) / 100

/-- `generateEMISchedule` from `BorrowerDashboard.jsx` lines 36-45:
`months = Number(duration) || 1` (so a zero duration becomes 1),
`perMonth = (principal / months).toFixed(2)`, and one entry
`{ month: "Month i", amount: perMonth, paid: false }` per month. -/
def generateEMISchedule (amount : ℚ) (duration : ℕ) : List Repayment :=
  let principal := amount
  let months := if duration = 0 then 1 else duration
  let perMonth := roundTo2 (principal / months)
  (List.range months).map fun i =>
    { month := "Month " ++ toString (i + 1), amount := perMonth, paid := false }

/-- The default-export `calculateEMI(principal, annualRatePercent,
tenureMonths)` from `src/utils/formatDate.js` lines 20-28: monthly rate
`r = annualRatePercent / 12 / 100`; returns 0 when `P <= 0`, `r <= 0` or
`n <= 0`, else `Math.round(P*r*(1+r)^n / ((1+r)^n - 1) * 100) / 100`.
The tenure is modelled as `ℕ` (the claims range over positive integer
tenures, where `Math.pow` is exact rational exponentiation). -/
def calculateEMI (principal annualRatePercent : ℚ) (tenureMonths : ℕ) : ℚ :=
  let P := principal
  let r := annualRatePercent / 12 / 100
  let n := tenureMonths
  if P ≤ 0 ∨ r ≤ 0 ∨ n = 0 then 0
  else roundTo2 (P * r * (1 + r) ^ n / ((1 + r) ^ n - 1))

/-- The named-export `calculateEMI(principal, rate, tenure)` from
`src/utils/formatDate.js` lines 29-35: `monthlyRate = rate / (12 * 100)`,
no zero-guarding, result formatted with `toFixed(2)` (we keep the numeric
value of that two-decimal string). -/
def calculateEMI_named (principal rate : ℚ) (tenure : ℕ) : ℚ :=
  let monthlyRate := rate / (12 * 100)
  roundTo2 (principal * monthlyRate * (1 + monthlyRate) ^ tenure /
    ((1 + monthlyRate) ^ tenure - 1))

/-- The per-loan body of `handleRepayment(loanId, index)` from
`BorrowerDashboard.jsx` lines 203-222: loans with a different id are
returned unchanged; if the indexed repayment is missing or already paid the
loan is returned unchanged; otherwise the entry's paid flag is set and the
status becomes `"Completed"` exactly when every entry is now paid. -/
def repayOne (loanId idx : ℕ) (loan : Loan) : Loan :=
  if loan.id ≠ loanId then loan
  else
    match loan.repayments[idx]? with
    | none => loan
    | some r =>
      if r.paid then loan
      else
        let repayments := loan.repayments.set idx { r with paid := true }
        let allPaid := repayments.all fun x => x.paid
        { loan with
            repayments := repayments
            status := if allPaid then "Completed" else loan.status }

/-- `handleRepayment` maps `repayOne` over the loan collection
(`BorrowerDashboard.jsx` line 204: `loans.map (loan => ...)`). -/
def handleRepayment (loans : List Loan) (loanId idx : ℕ) : List Loan :=
  loans.map (repayOne loanId idx)

/-- `handleApprove(id)` from `AdminDashboard.jsx` lines 152-158: every loan
with the given id gets status `"Approved"`, unconditionally. -/
def handleApprove (loans : List Loan) (id : ℕ) : List Loan :=
  loans.map fun loan =>
    if loan.id = id then { loan with status := "Approved" } else loan

/-- `handleReject(id)` from `AdminDashboard.jsx` lines 160-166: every loan
with the given id gets status `"Rejected"`, unconditionally. -/
def handleReject (loans : List Loan) (id : ℕ) : List Loan :=
  loans.map fun loan =>
    if loan.id = id then { loan with status := "Rejected" } else loan

/-- The per-loan body of `handleAssignLender` (`AdminDashboard.jsx`
lines 175-189): for the matching loan, the new status is `"Approved"` when
the current status is `"Pending"` or `"Assigned"` and is unchanged
otherwise, and the lender's id and name are recorded. -/
def assignLenderToLoan (lender : User) (loanId : ℕ) (loan : Loan) : Loan :=
  if loan.id ≠ loanId then loan
  else
    let newStatus :=
      if loan.status = "Pending" ∨ loan.status = "Assigned" then "Approved"
      else loan.status
    { loan with
        lenderId := some lender.id
        lenderName := some lender.name
        status := newStatus }

/-- `handleAssignLender(loanId)` from `AdminDashboard.jsx` lines 168-193:
if no lender is selected, or the selected id matches no user, the handler
returns early (state unchanged); otherwise it maps `assignLenderToLoan`
over the collection. -/
def handleAssignLender (loans : List Loan) (users : List User) (loanId : ℕ)
    (selectedLenderId : Option ℕ) : List Loan :=
  match selectedLenderId with
  | none => loans
  | some lid =>
    match users.find? fun u => u.id = lid with
    | none => loans
    | some lender => loans.map (assignLenderToLoan lender loanId)

/-- The per-loan body of `handleDisburse(loanId)` from
`LenderDashboard.jsx` lines 117-133: the matching loan is returned
unchanged only when its status is already `"Funds Disbursed"`; otherwise
its status becomes `"Funds Disbursed"` and `disbursedAt` is stamped. -/
def disburseLoan (loanId : ℕ) (now : String) (loan : Loan) : Loan :=
  if loan.id ≠ loanId then loan
  else if loan.status = "Funds Disbursed" then loan
  else { loan with status := "Funds Disbursed", disbursedAt := some now }

/-- `handleDisburse` maps `disburseLoan` over the (lender-filtered) loan
collection (`LenderDashboard.jsx` line 118). -/
def handleDisburse (loans : List Loan) (loanId : ℕ) (now : String) : List Loan :=
  loans.map (disburseLoan loanId now)

/-- `handleSaveLoan(loanId)` from `AdminDashboard.jsx` lines 205-229 (the
admin loan edit): rejected (state unchanged) when the edited amount or
duration is non-positive, otherwise the matching loan takes the edited
amount, duration, purpose and status (an empty status string falls back to
the loan's current status, per `editingLoan.status || loan.status`). -/
def handleSaveLoan (loans : List Loan) (loanId : ℕ) (editAmount : ℚ)
    (editDuration : ℕ) (editPurpose editStatus : String) : List Loan :=
  if editAmount ≤ 0 ∨ editDuration = 0 then loans
  else
    loans.map fun loan =>
      if loan.id = loanId then
        { loan with
            amount := editAmount
            duration := editDuration
            purpose := editPurpose
            status := if editStatus = "" then loan.status else editStatus }
      else loan

/-- The condition under which `AdminDashboard.jsx` (line 640) renders the
Approve and Reject buttons for a loan: `loan.status === "Pending"`. Stated
for every loan of the collection carrying the targeted id, since the
handler updates every such loan. -/
def uiApproveEnabled (loans : List Loan) (id : ℕ) : Prop :=
  ∀ l ∈ loans, l.id = id → l.status = "Pending"

/-- The condition under which `AdminDashboard.jsx` (lines 658-663) renders
the Assign button: status not `"Rejected"`, no lender name bound
(JavaScript falsiness of `loan.lenderName`: `null` or the empty string),
and status one of `"Approved"`, `"Pending"`, `"Assigned"`. -/
def uiAssignEnabled (loans : List Loan) (id : ℕ) : Prop :=
  ∀ l ∈ loans, l.id = id →
    l.status ≠ "Rejected" ∧
    (l.lenderName = none ∨ l.lenderName = some "") ∧
    (l.status = "Approved" ∨ l.status = "Pending" ∨ l.status = "Assigned")

/-- The condition under which `LenderDashboard.jsx` (lines 342-344) renders
the Mark Disbursed button: status none of `"Funds Disbursed"`,
`"Completed"`, `"Rejected"`. -/
def uiDisburseEnabled (loans : List Loan) (id : ℕ) : Prop :=
  ∀ l ∈ loans, l.id = id →
    l.status ≠ "Funds Disbursed" ∧ l.status ≠ "Completed" ∧ l.status ≠ "Rejected"

/-- The condition under which `BorrowerDashboard.jsx` renders the Pay EMI
button for entry `idx` of a loan: the loan is listed in the repayment
tracker (status `"Approved"`, `"Funds Disbursed"` or `"Completed"`, lines
560-566) and the button itself requires the entry to be unpaid and the
status not `"Completed"` (line 613); together the status must be
`"Approved"` or `"Funds Disbursed"`. -/
def uiPayEnabled (loans : List Loan) (id idx : ℕ) : Prop :=
  ∀ l ∈ loans, l.id = id →
    (l.status = "Approved" ∨ l.status = "Funds Disbursed") ∧
    ∃ r, l.repayments.get? idx = some r ∧ r.paid = false

/-- The loan-mutating operations the spec's lifecycle section ranges over
(the admin loan edit `handleSaveLoan` is kept separate, see the claims
about terminal states). -/
inductive LoanAction where
  | approve (id : ℕ)
  | reject (id : ℕ)
  | assignLender (users : List User) (id : ℕ) (selected : Option ℕ)
  | disburse (id : ℕ) (now : String)
  | payEMI (id : ℕ) (idx : ℕ)

/-- Dispatch of a `LoanAction` to the corresponding source handler. -/
def applyAction : LoanAction → List Loan → List Loan
  | LoanAction.approve id, loans => handleApprove loans id
  | LoanAction.reject id, loans => handleReject loans id
  | LoanAction.assignLender users id sel, loans => handleAssignLender loans users id sel
  | LoanAction.disburse id now, loans => handleDisburse loans id now
  | LoanAction.payEMI id idx, loans => handleRepayment loans id idx

/-- Whether the dashboards' UI offers the given action on the given
collection (the render-guard of the corresponding button, from the
source; `assignLender`'s selection conditions are handled inside the
handler itself). -/
def uiEnabled : LoanAction → List Loan → Prop
  | LoanAction.approve id, loans => uiApproveEnabled loans id
  | LoanAction.reject id, loans => uiApproveEnabled loans id
  | LoanAction.assignLender _ id _, loans => uiAssignEnabled loans id
  | LoanAction.disburse id _, loans => uiDisburseEnabled loans id
  | LoanAction.payEMI id idx, loans => uiPayEnabled loans id idx

/-- A sample loan record in the shape `handleRequestLoan` creates
(`BorrowerDashboard.jsx` lines 177-193), used to instantiate witnesses and
counterexamples. -/
def baseLoan : Loan :=
  { id := 1
    borrowerId := 7
    borrowerName := "B"
    amount := 100
    duration := 2
    purpose := "p"
    aadhar := "a"
    pan := "q"
    address := "ad"
    status := "Pending"
    lenderId := none
    lenderName := none
    repayments := []
    createdAt := "t0"
    disbursedAt := none }

/-- A sample lender user record. -/
def lenderUser : User := { id := 9, name := "L", role := "lender" }

/-- A sample loan whose single repayment entry is already paid. -/
def paidLoan : Loan :=
  { baseLoan with repayments := [⟨"Month 1", 10, true⟩] }

/-- A sample disbursed loan with one unpaid repayment entry left. -/
def lastUnpaidLoan : Loan :=
  { baseLoan with
      status := "Funds Disbursed"
      repayments := [⟨"Month 1", 50, false⟩] }

/-- A sample loan with two unpaid repayment entries. -/
def twoUnpaidLoan : Loan :=
  { baseLoan with
      repayments := [⟨"Month 1", 50, false⟩, ⟨"Month 2", 50, false⟩] }

/-- A sample loan in the `"Funds Disbursed"` status. -/
def disbursedLoan : Loan :=
  { baseLoan with status := "Funds Disbursed" }

/-- A sample loan in the terminal `"Rejected"` status. -/
def rejectedLoan : Loan :=
  { baseLoan with status := "Rejected" }

/-- A sample lenderless loan in the terminal `"Completed"` status. -/
def completedLoan : Loan :=
  { baseLoan with status := "Completed" }

/-- A sample loan in the `"Approved"` status. -/
def approvedLoan : Loan :=
  { baseLoan with status := "Approved" }

/-- A second sample loan, distinct id, `"Pending"` status. -/
def pendingLoanTwo : Loan :=
  { baseLoan with id := 2 }

/-- A sample disbursed loan bound to lender 9. -/
def lenderBoundLoan : Loan :=
  { baseLoan with
      status := "Funds Disbursed"
      lenderId := some 9
      lenderName := some "L" }

/-! ## Helper lemmas -/

/-- The amounts of a generated schedule are `months` copies of the rounded
per-month figure. -/
lemma amounts_eq_replicate (P : ℚ) (n : ℕ) (hn0 : n ≠ 0) :
    ((generateEMISchedule P n).map fun r => r.amount) =
      List.replicate n (roundTo2 (P / n)) := by
  unfold generateEMISchedule
  simp only [hn0, if_false, ite_false]
  rw [List.map_map]
  have hfg : ((fun r : Repayment => r.amount) ∘ fun i : ℕ =>
      ({ month := "Month " ++ toString (i + 1), amount := roundTo2 (P / n),
         paid := false } : Repayment)) = fun _ : ℕ => roundTo2 (P / n) := rfl
  rw [hfg, List.map_const', List.length_range]

/-- `repayOne` leaves a loan with a different id unchanged. -/
lemma repayOne_id_ne (loanId idx : ℕ) (loan : Loan) (h : loan.id ≠ loanId) :
    repayOne loanId idx loan = loan := by
  unfold repayOne
  rw [if_pos h]

/-- `repayOne` leaves the loan unchanged when the indexed entry is missing
or already paid. -/
lemma repayOne_of_all (loanId idx : ℕ) (loan : Loan)
    (h : ((loan.repayments[idx]?).all fun r => r.paid) = true) :
    repayOne loanId idx loan = loan := by
  unfold repayOne
  split
  · rfl
  · split
    · rfl
    · rename_i hsome
      rw [hsome] at h
      simp at h
      simp [h]

/-- The marking branch of `repayOne`, written out. -/
lemma repayOne_marks (loanId idx : ℕ) (loan : Loan) (r : Repayment)
    (hid : loan.id = loanId) (hget : loan.repayments[idx]? = some r)
    (hunpaid : r.paid = false) :
    repayOne loanId idx loan =
      { loan with
          repayments := loan.repayments.set idx { r with paid := true }
          status :=
            if (loan.repayments.set idx { r with paid := true }).all (fun x => x.paid)
            then "Completed" else loan.status } := by
  unfold repayOne
  rw [if_neg (by simp [hid]), hget]
  simp [hunpaid]

/-- `repayOne` is idempotent on every loan. -/
lemma repayOne_idem (loanId idx : ℕ) (loan : Loan) :
    repayOne loanId idx (repayOne loanId idx loan) = repayOne loanId idx loan := by
  by_cases hid : loan.id ≠ loanId
  · rw [repayOne_id_ne loanId idx loan hid, repayOne_id_ne loanId idx loan hid]
  · push_neg at hid
    cases hc : loan.repayments[idx]? with
    | none =>
      have h1 : repayOne loanId idx loan = loan :=
        repayOne_of_all loanId idx loan (by rw [hc]; rfl)
      rw [h1, h1]
    | some r =>
      by_cases hp : r.paid
      · have h1 : repayOne loanId idx loan = loan :=
          repayOne_of_all loanId idx loan (by rw [hc]; simpa using hp)
        rw [h1, h1]
      · have hlt : idx < loan.repayments.length := (List.getElem?_eq_some_iff.mp hc).1
        have h2 : (repayOne loanId idx loan).repayments[idx]? =
            some { r with paid := true } := by
          rw [repayOne_marks loanId idx loan r hid hc (by simpa using hp)]
          simpa using List.getElem?_set_self (by simpa using hlt)
        apply repayOne_of_all
        rw [h2]
        rfl

/-! ## The claims -/

/-- C1: for every principal `P > 0` and duration `n ≥ 1` the EMI schedule
generator returns exactly `n` entries, the `i`-th (0-based `i`) labelled
`"Month (i+1)"` with amount `P / n` rounded to two decimals and
`paid = false`; a duration of zero is treated as 1; principal 12000 over
12 months gives 12 entries of 1000.00. -/
theorem generateEMISchedule_entries (P : ℚ) (n : ℕ) (hP : 0 < P) (hn : 1 ≤ n) :
    (generateEMISchedule P n).length = n ∧
    (∀ i : ℕ, i < n → (generateEMISchedule P n)[i]? =
      some { month := "Month " ++ toString (i + 1),
             amount := roundTo2 (P / n), paid := false }) ∧
    (∀ Q : ℚ, generateEMISchedule Q 0 = generateEMISchedule Q 1) ∧
    (generateEMISchedule 12000 12).map (fun r => r.amount) = List.replicate 12 1000 := by
  have hn0 : n ≠ 0 := by omega
  refine ⟨?_, ?_, ?_, ?_⟩
  · simp [generateEMISchedule, hn0]
  · intro i hi
    simp [generateEMISchedule, hn0, List.getElem?_map, List.getElem?_range hi]
  · intro Q
    simp [generateEMISchedule]
  · rw [amounts_eq_replicate 12000 12 (by norm_num)]
    have hc : roundTo2 ((12000 : ℚ) / ((12 : ℕ) : ℚ)) = 1000 := by
      unfold roundTo2
      rw [round_eq]
      norm_num
    rw [hc]

/-- Witness for C1 at principal 12000, duration 12. -/
theorem generateEMISchedule_entries_witness :
    (0 : ℚ) < 12000 ∧ (1 : ℕ) ≤ 12 ∧
    ((generateEMISchedule 12000 12).length = 12 ∧
     (∀ i : ℕ, i < 12 → (generateEMISchedule 12000 12)[i]? =
       some { month := "Month " ++ toString (i + 1),
              amount := roundTo2 ((12000 : ℚ) / ((12 : ℕ) : ℚ)), paid := false }) ∧
     (∀ Q : ℚ, generateEMISchedule Q 0 = generateEMISchedule Q 1) ∧
     (generateEMISchedule 12000 12).map (fun r => r.amount) = List.replicate 12 1000) :=
  ⟨by norm_num, by norm_num, generateEMISchedule_entries 12000 12 (by norm_num) (by norm_num)⟩

/-- C8: for every `P > 0` and `n ≥ 1` the schedule has exactly `n` entries
and their sum differs from `P` by at most `n` half-cents. -/
theorem generateEMISchedule_sum_close (P : ℚ) (n : ℕ) (hP : 0 < P) (hn : 1 ≤ n) :
    (generateEMISchedule P n).length = n ∧
    |((generateEMISchedule P n).map fun r => r.amount).sum - P| ≤ n * (1 / 200) := by
  have hn0 : n ≠ 0 := by omega
  have hnq : ((n : ℚ)) ≠ 0 := Nat.cast_ne_zero.mpr hn0
  constructor
  · simp [generateEMISchedule, hn0]
  · rw [amounts_eq_replicate P n hn0, List.sum_replicate, nsmul_eq_mul]
    set y : ℚ := P / n * 100 with hy
    have h1 : (n : ℚ) * roundTo2 (P / n) - P = (n : ℚ) / 100 * ((round y : ℤ) - y) := by
      rw [roundTo2, hy]
      field_simp
      ring
    rw [h1, abs_mul]
    have h2 : |((round y : ℤ) : ℚ) - y| ≤ 1 / 2 := by
      rw [abs_sub_comm]
      exact abs_sub_round y
    have h3 : |(n : ℚ) / 100| = (n : ℚ) / 100 := abs_of_nonneg (by positivity)
    rw [h3]
    calc (n : ℚ) / 100 * |((round y : ℤ) : ℚ) - y| ≤ (n : ℚ) / 100 * (1 / 2) :=
          mul_le_mul_of_nonneg_left h2 (by positivity)
      _ = n * (1 / 200) := by ring

/-- Witness for C8 at principal 12000, duration 12. -/
theorem generateEMISchedule_sum_close_witness :
    (0 : ℚ) < 12000 ∧ (1 : ℕ) ≤ 12 ∧
    ((generateEMISchedule 12000 12).length = 12 ∧
     |((generateEMISchedule 12000 12).map fun r => r.amount).sum - 12000| ≤
       ((12 : ℕ) : ℚ) * (1 / 200)) :=
  ⟨by norm_num, by norm_num, generateEMISchedule_sum_close 12000 12 (by norm_num) (by norm_num)⟩

/-- C5: the default-export EMI calculator returns 0 exactly when the
principal, the annual rate or the tenure is non-positive, otherwise the
standard amortized payment with monthly rate `rate / 12 / 100`, rounded to
two decimals; at (100000, 12, 12) it returns 8884.88. -/
theorem calculateEMI_guard_formula_example :
    (∀ (P rate : ℚ) (n : ℕ), calculateEMI P rate n =
      if P ≤ 0 ∨ rate ≤ 0 ∨ n = 0 then 0
      else roundTo2 (P * (rate / 12 / 100) * (1 + rate / 12 / 100) ^ n /
        ((1 + rate / 12 / 100) ^ n - 1))) ∧
    calculateEMI 100000 12 12 = 888488 / 100 := by
  constructor
  · intro P rate n
    unfold calculateEMI
    have hiff : rate / 12 / 100 ≤ 0 ↔ rate ≤ 0 := by
      rw [div_div]
      constructor
      · intro h
        nlinarith
      · intro h
        exact div_nonpos_of_nonpos_of_nonneg h (by norm_num)
    simp only [hiff]
  · unfold calculateEMI roundTo2
    rw [if_neg (by norm_num)]
    rw [round_eq]
    norm_num

/-- C9: the two EMI calculator variants agree on every positive principal,
positive annual rate and positive integer tenure. -/
theorem calculateEMI_variants_agree (P rate : ℚ) (n : ℕ)
    (hP : 0 < P) (hr : 0 < rate) (hn : 0 < n) :
    calculateEMI P rate n = calculateEMI_named P rate n := by
  unfold calculateEMI calculateEMI_named
  have hguard : ¬(P ≤ 0 ∨ rate / 12 / 100 ≤ 0 ∨ n = 0) := by
    push_neg
    refine ⟨hP, by positivity, by omega⟩
  rw [if_neg hguard, div_div]

/-- Witness for C9 at (100000, 12, 12). -/
theorem calculateEMI_variants_agree_witness :
    (0 : ℚ) < 100000 ∧ (0 : ℚ) < 12 ∧ (0 : ℕ) < 12 ∧
    calculateEMI 100000 12 12 = calculateEMI_named 100000 12 12 :=
  ⟨by norm_num, by norm_num, by norm_num,
    calculateEMI_variants_agree 100000 12 12 (by norm_num) (by norm_num) (by norm_num)⟩

/-- C10: record-payment leaves the loan unchanged when the indexed entry is
missing or already paid, never turns a paid flag back off (a paid entry is
returned verbatim), and is idempotent on the whole collection. -/
theorem handleRepayment_monotone_idem (loanId idx : ℕ) :
    (∀ loan : Loan, ((loan.repayments[idx]?).all fun r => r.paid) = true →
      repayOne loanId idx loan = loan) ∧
    (∀ (loan : Loan) (j : ℕ) (r : Repayment),
      loan.repayments[j]? = some r → r.paid = true →
      (repayOne loanId idx loan).repayments[j]? = some r) ∧
    (∀ loans : List Loan,
      handleRepayment (handleRepayment loans loanId idx) loanId idx =
        handleRepayment loans loanId idx) := by
  refine ⟨fun loan h => repayOne_of_all loanId idx loan h, ?_, ?_⟩
  · intro loan j r hj hpaid
    by_cases hid : loan.id ≠ loanId
    · rw [repayOne_id_ne loanId idx loan hid, hj]
    · push_neg at hid
      cases hc : loan.repayments[idx]? with
      | none =>
        rw [repayOne_of_all loanId idx loan (by rw [hc]; rfl), hj]
      | some r0 =>
        by_cases hp : r0.paid
        · rw [repayOne_of_all loanId idx loan (by rw [hc]; simpa using hp), hj]
        · rw [repayOne_marks loanId idx loan r0 hid hc (by simpa using hp)]
          by_cases hji : j = idx
          · subst hji
            rw [hj] at hc
            cases hc
            simp at hp
            rw [hp] at hpaid
            cases hpaid
          · simpa using (List.getElem?_set_ne (by omega)).trans hj
  · intro loans
    unfold handleRepayment
    rw [List.map_map]
    exact List.map_congr_left fun a _ => repayOne_idem loanId idx a

/-- Witness for C10 on a loan whose single entry is already paid. -/
theorem handleRepayment_monotone_idem_witness :
    (((paidLoan.repayments[(0 : ℕ)]?).all fun r => r.paid) = true ∧
      repayOne 1 0 paidLoan = paidLoan) ∧
    ((repayOne 1 0 paidLoan).repayments[(0 : ℕ)]? = some ⟨"Month 1", 10, true⟩) ∧
    (handleRepayment (handleRepayment [paidLoan] 1 0) 1 0 =
      handleRepayment [paidLoan] 1 0) :=
  ⟨⟨rfl, (handleRepayment_monotone_idem 1 0).1 _ rfl⟩,
   (handleRepayment_monotone_idem 1 0).2.1 _ 0 ⟨"Month 1", 10, true⟩ rfl rfl,
   (handleRepayment_monotone_idem 1 0).2.2 _⟩

/-- C2 counterexample: the admin loan edit (`handleSaveLoan`) can set a
loan's status to `"Completed"` while none of its repayment entries is
paid, so "status Completed exactly when every paid flag is true" fails. -/
theorem completed_status_without_all_paid :
    (handleSaveLoan [twoUnpaidLoan] 1 100 2 "p" "Completed").map
      (fun l => (l.status, l.repayments.all fun x => x.paid)) = [("Completed", false)] := by
  unfold handleSaveLoan
  rw [if_neg (by norm_num)]
  simp [twoUnpaidLoan, baseLoan]

/-- C2 (amended): record-payment on a matching loan with an existing unpaid
entry marks exactly that entry and sets the status to `"Completed"` if and
only if every entry is then paid, leaving it unchanged otherwise; in
particular marking the last unpaid entry completes the loan. -/
theorem repayOne_postcondition (loanId idx : ℕ) (loan : Loan) (r : Repayment)
    (hid : loan.id = loanId) (hget : loan.repayments[idx]? = some r)
    (hunpaid : r.paid = false) :
    (repayOne loanId idx loan).repayments = loan.repayments.set idx { r with paid := true } ∧
    (repayOne loanId idx loan).status =
      (if (loan.repayments.set idx { r with paid := true }).all (fun x => x.paid)
       then "Completed" else loan.status) ∧
    (((loan.repayments.set idx { r with paid := true }).all fun x => x.paid) = true →
      (repayOne loanId idx loan).status = "Completed") := by
  rw [repayOne_marks loanId idx loan r hid hget hunpaid]
  refine ⟨rfl, rfl, fun hall => ?_⟩
  simp [hall]

/-- Witness for the amended C2: paying the single outstanding entry of a
disbursed loan completes it. -/
theorem repayOne_postcondition_witness :
    lastUnpaidLoan.id = 1 ∧
    lastUnpaidLoan.repayments[(0 : ℕ)]? = some ⟨"Month 1", 50, false⟩ ∧
    (⟨"Month 1", 50, false⟩ : Repayment).paid = false ∧
    ((repayOne 1 0 lastUnpaidLoan).repayments =
        lastUnpaidLoan.repayments.set 0 ⟨"Month 1", 50, true⟩ ∧
      (repayOne 1 0 lastUnpaidLoan).status =
        (if (lastUnpaidLoan.repayments.set 0 ⟨"Month 1", 50, true⟩).all (fun x => x.paid)
         then "Completed" else lastUnpaidLoan.status) ∧
      (((lastUnpaidLoan.repayments.set 0 ⟨"Month 1", 50, true⟩).all fun x => x.paid) = true →
        (repayOne 1 0 lastUnpaidLoan).status = "Completed")) :=
  ⟨rfl, rfl, rfl, repayOne_postcondition 1 0 lastUnpaidLoan ⟨"Month 1", 50, false⟩ rfl rfl rfl⟩

/-- C6 counterexample -/
theorem approve_changes_nonpending :
    handleApprove [disbursedLoan] 1 = [{ disbursedLoan with status := "Approved" }] ∧
    ({ disbursedLoan with status := "Approved" } : Loan) ≠ disbursedLoan := by
  constructor
  · unfold handleApprove
    simp [disbursedLoan, baseLoan]
  · intro h
    have := congrArg Loan.status h
    simp [disbursedLoan, baseLoan] at this

/-- C6 amended -/
theorem approve_reject_noop_under_ui_guard (loans : List Loan) (id : ℕ)
    (hui : uiApproveEnabled loans id) :
    ∀ (i : ℕ) (l : Loan), loans[i]? = some l → l.status ≠ "Pending" →
      (handleApprove loans id)[i]? = some l ∧ (handleReject loans id)[i]? = some l := by
  intro i l hil hnp
  have hmem : l ∈ loans := List.getElem?_mem hil
  have hne : l.id ≠ id := fun h => hnp (hui l hmem h)
  constructor
  · unfold handleApprove
    rw [List.getElem?_map, hil]
    simp [hne]
  · unfold handleReject
    rw [List.getElem?_map, hil]
    simp [hne]

theorem approve_reject_noop_under_ui_guard_witness :
    uiApproveEnabled [completedLoan, pendingLoanTwo] 2 ∧
    completedLoan.status ≠ "Pending" ∧
    ((handleApprove [completedLoan, pendingLoanTwo] 2)[(0 : ℕ)]? = some completedLoan ∧
     (handleReject [completedLoan, pendingLoanTwo] 2)[(0 : ℕ)]? = some completedLoan) := by
  have hui : uiApproveEnabled [completedLoan, pendingLoanTwo] 2 := by
    unfold uiApproveEnabled
    decide
  have hst : completedLoan.status ≠ "Pending" := by
    decide
  exact ⟨hui, hst,
    approve_reject_noop_under_ui_guard [completedLoan, pendingLoanTwo] 2 hui 0 completedLoan rfl hst⟩

/-- C7 counterexample -/
theorem assign_keeps_approved_status :
    (handleAssignLender [approvedLoan] [lenderUser] 1 (some 9)).map Loan.status =
      ["Approved"] ∧
    (handleAssignLender [{ baseLoan with id := 1 }] [lenderUser] 1 (some 9)).map Loan.status =
      ["Approved"] ∧
    ("Approved" : String) ≠ "Assigned" := by
  refine ⟨?_, ?_, by decide⟩
  · unfold handleAssignLender
    simp [List.find?, lenderUser]
    unfold assignLenderToLoan
    simp [approvedLoan, baseLoan]
  · unfold handleAssignLender
    simp [List.find?, lenderUser]
    unfold assignLenderToLoan
    simp [baseLoan]

/-- C7 amended -/
theorem assignLender_behaviour (loans : List Loan) (users : List User)
    (loanId lid : ℕ) (lender : User)
    (hfind : (users.find? fun u => u.id = lid) = some lender) :
    handleAssignLender loans users loanId none = loans ∧
    ∀ (i : ℕ) (l : Loan), loans[i]? = some l →
      (handleAssignLender loans users loanId (some lid))[i]? =
        some (assignLenderToLoan lender loanId l) ∧
      (l.id = loanId →
        (assignLenderToLoan lender loanId l).lenderId = some lender.id ∧
        (assignLenderToLoan lender loanId l).lenderName = some lender.name ∧
        (assignLenderToLoan lender loanId l).status =
          (if l.status = "Pending" ∨ l.status = "Assigned" then "Approved"
           else l.status)) := by
  constructor
  · rfl
  · intro i l hil
    constructor
    · unfold handleAssignLender
      dsimp only
      rw [hfind]
      rw [List.getElem?_map, hil]
      rfl
    · intro hid
      unfold assignLenderToLoan
      rw [if_neg (by simp [hid])]
      exact ⟨rfl, rfl, rfl⟩

theorem assignLender_behaviour_witness :
    (([lenderUser].find? fun u => u.id = 9) = some lenderUser) ∧
    [approvedLoan][(0 : ℕ)]? = some approvedLoan ∧
    ((handleAssignLender [approvedLoan] [lenderUser] 1 (some 9))[(0 : ℕ)]? =
        some (assignLenderToLoan lenderUser 1 approvedLoan) ∧
      (approvedLoan.id = 1 →
        (assignLenderToLoan lenderUser 1 approvedLoan).lenderId = some lenderUser.id ∧
        (assignLenderToLoan lenderUser 1 approvedLoan).lenderName = some lenderUser.name ∧
        (assignLenderToLoan lenderUser 1 approvedLoan).status =
          (if approvedLoan.status = "Pending" ∨ approvedLoan.status = "Assigned"
           then "Approved" else approvedLoan.status))) :=
  ⟨rfl, rfl,
    (assignLender_behaviour [approvedLoan] [lenderUser] 1 9 lenderUser rfl).2 0 approvedLoan rfl⟩

/-- C4 counterexample -/
theorem disburse_overwrites_completed :
    completedLoan.status = "Completed" ∧
    completedLoan.lenderId = none ∧
    (handleDisburse [completedLoan] 1 "t1").map (fun l => (l.status, l.lenderId)) =
      [("Funds Disbursed", none)] := by
  refine ⟨rfl, rfl, ?_⟩
  unfold handleDisburse disburseLoan
  simp [completedLoan, baseLoan]

/-- C4 amended -/
theorem disburse_guard_behaviour (loans : List Loan) (loanId : ℕ) (now : String) (uid : ℕ)
    (hview : ∀ l ∈ loans, l.lenderId = some uid) :
    (∀ (i : ℕ) (l : Loan), loans[i]? = some l → l.status = "Funds Disbursed" →
      (handleDisburse loans loanId now)[i]? = some l) ∧
    (∀ l' ∈ handleDisburse loans loanId now, l'.lenderId = some uid) := by
  constructor
  · intro i l hil hFD
    unfold handleDisburse
    rw [List.getElem?_map, hil]
    unfold disburseLoan
    by_cases h : l.id ≠ loanId
    · simp [h]
    · push_neg at h
      simp [h, hFD]
  · intro l' hl'
    unfold handleDisburse at hl'
    rcases List.mem_map.mp hl' with ⟨l, hl, rfl⟩
    unfold disburseLoan
    split
    · exact hview l hl
    · split
      · exact hview l hl
      · exact hview l hl

theorem disburse_guard_behaviour_witness :
    (∀ l ∈ [lenderBoundLoan], l.lenderId = some 9) ∧
    [lenderBoundLoan][(0 : ℕ)]? = some lenderBoundLoan ∧
    lenderBoundLoan.status = "Funds Disbursed" ∧
    ((handleDisburse [lenderBoundLoan] 1 "t1")[(0 : ℕ)]? = some lenderBoundLoan ∧
     ∀ l' ∈ handleDisburse [lenderBoundLoan] 1 "t1", l'.lenderId = some 9) :=
  ⟨by decide, rfl, rfl,
    (disburse_guard_behaviour [lenderBoundLoan] 1 "t1" 9 (by decide)).1 0 lenderBoundLoan rfl rfl,
    (disburse_guard_behaviour [lenderBoundLoan] 1 "t1" 9 (by decide)).2⟩

/-- C3 counterexample -/
theorem approve_regresses_rejected :
    rejectedLoan.status = "Rejected" ∧
    (handleApprove [rejectedLoan] 1).map Loan.status = ["Approved"] := by
  refine ⟨rfl, ?_⟩
  unfold handleApprove
  simp [rejectedLoan, baseLoan]

/-- C3 amended -/
theorem terminal_preserved_under_ui_gating (a : LoanAction) (loans : List Loan)
    (hui : uiEnabled a loans) :
    ∀ (i : ℕ) (l : Loan), loans[i]? = some l →
      (l.status = "Rejected" ∨ l.status = "Completed") →
      ((applyAction a loans)[i]?).map Loan.status = some l.status := by
  intro i l hil hterm
  have hmem : l ∈ loans := List.getElem?_mem hil
  have hnp : l.status ≠ "Pending" := by
    rcases hterm with h | h <;> simp [h]
  cases a with
  | approve id =>
    have hne : l.id ≠ id := fun h => hnp (hui l hmem h)
    unfold applyAction handleApprove
    rw [List.getElem?_map, hil]
    simp [hne]
  | reject id =>
    have hne : l.id ≠ id := fun h => hnp (hui l hmem h)
    unfold applyAction handleReject
    rw [List.getElem?_map, hil]
    simp [hne]
  | assignLender users id sel =>
    unfold applyAction handleAssignLender
    cases sel with
    | none => simp [hil]
    | some lid =>
      dsimp only
      cases hf : users.find? fun u => u.id = lid with
      | none => simp [hil]
      | some lender =>
        rw [List.getElem?_map, hil]
        have hst : (assignLenderToLoan lender id l).status = l.status := by
          unfold assignLenderToLoan
          split
          · rfl
          · have : ¬(l.status = "Pending" ∨ l.status = "Assigned") := by
              rcases hterm with h | h <;> simp [h]
            simp [this]
        simp [hst]
  | disburse id now =>
    unfold applyAction handleDisburse
    rw [List.getElem?_map, hil]
    have hst : (disburseLoan id now l).status = l.status := by
      by_cases h : l.id ≠ id
      · unfold disburseLoan
        rw [if_pos h]
      · push_neg at h
        exact absurd hterm (by push_neg; exact ⟨(hui l hmem h).2.2, (hui l hmem h).2.1⟩)
    simp [hst]
  | payEMI id idx =>
    unfold applyAction handleRepayment
    rw [List.getElem?_map, hil]
    have hne : l.id ≠ id := by
      intro h
      rcases (hui l hmem h).1 with hA | hF
      · rcases hterm with ht | ht <;> rw [ht] at hA <;> simp at hA
      · rcases hterm with ht | ht <;> rw [ht] at hF <;> simp at hF
    simp [repayOne_id_ne id idx l hne]

theorem terminal_preserved_under_ui_gating_witness :
    uiEnabled (LoanAction.approve 2) [completedLoan, pendingLoanTwo] ∧
    [completedLoan, pendingLoanTwo][(0 : ℕ)]? = some completedLoan ∧
    (completedLoan.status = "Rejected" ∨ completedLoan.status = "Completed") ∧
    ((applyAction (LoanAction.approve 2) [completedLoan, pendingLoanTwo])[(0 : ℕ)]?).map
      Loan.status = some completedLoan.status :=
  ⟨by unfold uiEnabled uiApproveEnabled; decide, rfl, Or.inr rfl,
    terminal_preserved_under_ui_gating (LoanAction.approve 2) [completedLoan, pendingLoanTwo]
      (by unfold uiEnabled uiApproveEnabled; decide) 0 completedLoan rfl (Or.inr rfl)⟩
